import Mathlib

set_option maxRecDepth 4000

/-!
Verification of the out-percentage aggregation core of the OutPercentageApp
Streamlit dashboard (src/streamlit_app.py), shallowly embedded in Lean 4.

The pandas DataFrame of Statcast pitch events is modelled as a `List` of
records; nullable columns are `Option`; percentages are exact rationals with
an explicit round-to-2-decimals step mirroring `.round(2)`.
-/

namespace OutPercentageApp

/-- One row of the raw Statcast dataset, restricted to the columns the core
logic reads: `player_name`, `game_year`, `pitch_type` (nullable short code)
and `events` (the nullable at-bat outcome, called `event_outcome` in the
spec's data model). -/
structure PitchEvent where
  player_name : String
  game_year : Int
  pitch_type : Option String
  events : Option String
  deriving DecidableEq, Repr

/-- A pitch event after `calculate_out_percentage` has added the
`IsOutPitch` flag column. -/
structure ProcessedEvent extends PitchEvent where
  IsOutPitch : Bool
  deriving DecidableEq, Repr

/-- The fixed 13-element list of out-producing event outcomes
(`out_events` in `calculate_out_percentage`). -/
def out_events : List String :=
  ["field_out", "strikeout", "grounded_into_double_play", "fielders_choice_out",
   "force_out", "sac_fly", "sac_bunt", "strikeout_double_play", "double_play",
   "sac_fly_double_play", "other_out", "triple_play", "sac_bunt_double_play"]

/-- `data['events'].isin(out_events)` on one cell: a null cell is never a
member of a list of strings, so it yields `false`. -/
def isin_out (x : Option String) : Bool :=
  match x with
  | none => false
  | some s => out_events.contains s

/-- `calculate_out_percentage`: adds the boolean `IsOutPitch` column, true
iff the `events` cell is one of `out_events`. -/
def calculate_out_percentage (data : List PitchEvent) : List ProcessedEvent :=
  data.map (fun e => { toPitchEvent := e, IsOutPitch := isin_out e.events })

/-- Round a rational to 2 decimal places, mirroring `.round(2)`
(tie-breaking at exact .005 boundaries is implementation-defined per the
spec; Mathlib's `round` is used here). -/
def round2 (q : ℚ) : ℚ := (round (q * 100) : ℤ) / 100

/-- One group's aggregate before the `pitch_name` column is added:
the result of the `groupby('pitch_type').agg(...)` plus the
`out_percentage` column. -/
structure GroupStats where
  pitch_type : String
  out_pitch_count : Nat
  total_pitches : Nat
  out_percentage : ℚ
  deriving DecidableEq, Repr

/-- An output row of either aggregation function, after the `pitch_name`
column is added. -/
structure AggregateRow where
  pitch_type : String
  out_pitch_count : Nat
  total_pitches : Nat
  out_percentage : ℚ
  pitch_name : String
  deriving DecidableEq, Repr

/-- Lexicographic comparison of character lists by code point, the order
pandas uses when sorting string group keys. -/
def lexLe : List Char → List Char → Bool
  | [], _ => true
  | _ :: _, [] => false
  | c :: cs, d :: ds =>
    if c.val < d.val then true
    else if d.val < c.val then false
    else lexLe cs ds

/-- Lexicographic comparison of strings by code point. -/
def strLe (a b : String) : Bool := lexLe a.data b.data

/-- Insert a string into a `strLe`-sorted list, keeping it sorted. -/
def insert_sorted (s : String) : List String → List String
  | [] => [s]
  | t :: ts => if strLe s t then s :: t :: ts else t :: insert_sorted s ts

/-- Insertion sort by `strLe`. -/
def sort_keys : List String → List String
  | [] => []
  | t :: ts => insert_sorted t (sort_keys ts)

/-- The group keys of `groupby('pitch_type')`: the distinct non-null
`pitch_type` values, sorted (pandas groups by sorted keys and silently
drops rows whose key is null). -/
def group_keys (l : List ProcessedEvent) : List String :=
  sort_keys ((l.filterMap (fun e => e.pitch_type)).dedup)

/-- The aggregate of one pitch-type group: `out_pitch_count` is the sum of
the boolean `IsOutPitch` column, `total_pitches` its count, and
`out_percentage = (out_pitch_count / total_pitches * 100).round(2)`. -/
def make_group_stats (l : List ProcessedEvent) (pt : String) : GroupStats :=
  let grp := l.filter (fun e => e.pitch_type == some pt)
  let outs := (grp.filter (fun e => e.IsOutPitch)).length
  let total := grp.length
  { pitch_type := pt, out_pitch_count := outs, total_pitches := total,
    out_percentage := round2 ((outs : ℚ) / (total : ℚ) * 100) }

/-- The full per-group aggregate table before the minimum-pitches filter:
one `GroupStats` row per group key. -/
def group_stats_list (l : List ProcessedEvent) : List GroupStats :=
  (group_keys l).map (make_group_stats l)

/-- The fixed 14-entry pitch-type code → display-name table
(`pitch_type_map`, identical in both aggregation functions). -/
def pitch_type_map : List (String × String) :=
  [("FF", "Four-Seam Fastball"), ("SL", "Slider"), ("CH", "Changeup"),
   ("CU", "Curveball"), ("SI", "Sinker"), ("FC", "Cutter"),
   ("FS", "Splitter"), ("FT", "Two-Seam Fastball"), ("KC", "Knuckle Curve"),
   ("EP", "Eephus"), ("KN", "Knuckleball"), ("SC", "Screwball"),
   ("ST", "Sweeper"), ("SV", "Slurve")]

/-- `pitch_type_map.get(x, x)`: look a code up in the table, falling back to
the code itself when absent. -/
def map_get_self (m : List (String × String)) (x : String) : String :=
  match m.lookup x with
  | some v => v
  | none => x

/-- The shared tail of both aggregation functions: group by pitch type,
aggregate, compute the percentage, keep only groups with
`total_pitches >= min_pitches`, then add the `pitch_name` column. -/
def aggregate_pipeline (l : List ProcessedEvent) (min_pitches : Nat) : List AggregateRow :=
  ((group_stats_list l).filter
      (fun r => min_pitches ≤ r.total_pitches)).map
    (fun r =>
      { pitch_type := r.pitch_type, out_pitch_count := r.out_pitch_count,
        total_pitches := r.total_pitches, out_percentage := r.out_percentage,
        pitch_name := map_get_self pitch_type_map r.pitch_type })

/-- `get_out_percentage_by_pitch_type`: filter to the selected player and
year, then run the grouping/threshold/lookup pipeline. -/
def get_out_percentage_by_pitch_type (data : List ProcessedEvent)
    (player_name : String) (year : Int) (min_pitches : Nat) : List AggregateRow :=
  aggregate_pipeline
    (data.filter (fun e => e.player_name == player_name && e.game_year == year))
    min_pitches

/-- `get_league_avg_out_percentage`: filter to the selected year only
(all players), then the identical pipeline. -/
def get_league_avg_out_percentage (data : List ProcessedEvent)
    (year : Int) (min_pitches : Nat) : List AggregateRow :=
  aggregate_pipeline (data.filter (fun e => e.game_year == year)) min_pitches

/-- Python `str.strip()` on a list of characters: drop whitespace from both
ends. -/
def strip (s : List Char) : List Char :=
  ((s.dropWhile Char.isWhitespace).reverse.dropWhile Char.isWhitespace).reverse

/-- Python `name.split(',', 1)`: split at the first comma only.  Returns
`none` when the string holds no comma (the code guards the split with
`if ',' in name`), else the pair (before, after) of the first comma. -/
def split_first_comma : List Char → Option (List Char × List Char)
  | [] => none
  | c :: cs =>
    if c = ',' then some ([], cs)
    else
      match split_first_comma cs with
      | none => none
      | some (a, b) => some (c :: a, b)

/-- `format_player_name` on the character list of the name: when a comma is
present, split `"Last, First"` at the first comma and return
`f"{first.strip()} {last.strip()}"`; otherwise return the name unchanged. -/
def format_player_name (name : List Char) : List Char :=
  match split_first_comma name with
  | some (last_name, first_name) => strip first_name ++ ' ' :: strip last_name
  | none => name

/-- `format_player_name` lifted back to `String` through its character
list. -/
def format_player_name_str (name : String) : String :=
  String.mk (format_player_name name.data)

/-- Result of the data loader: the dataset it returns plus the error
messages it shows the user through `st.error`, in order. -/
structure LoadResult where
  data : List PitchEvent
  errors : List String
  deriving DecidableEq, Repr

/-- The wall clock, abstracted: the code's `datetime.now()` together with
the `timedelta(days=21)` subtraction, both already rendered through
`strftime("%Y-%m-%d")` as the two date strings the fallback fetch uses.
Real time and calendar arithmetic live in the external `datetime` library,
so the loader is parameterised over their result. -/
structure Clock where
  today_minus_21_str : String
  today_str : String

/-- `load_statcast_data`: fetch `{start_year}-03-01 .. {end_year}-11-30`;
on any failure report the error and try once more with the last-3-weeks
window from the clock; on a second failure report it and return an empty
dataset.  The `statcast` call is the external collaborator, passed in as a
fallible function of the two date strings. -/
def load_statcast_data (fetch : String → String → Except String (List PitchEvent))
    (clock : Clock) (start_year end_year : Int) : LoadResult :=
  let start_date := toString start_year ++ "-03-01"
  let end_date := toString end_year ++ "-11-30"
  match fetch start_date end_date with
  | .ok data => { data := data, errors := [] }
  | .error e =>
    let new_start_date := clock.today_minus_21_str
    let new_end_date := clock.today_str
    match fetch new_start_date new_end_date with
    | .ok data => { data := data, errors := ["Error loading data: " ++ e] }
    | .error e2 =>
      { data := [],
        errors := ["Error loading data: " ++ e, "Failed to load data: " ++ e2] }

/-! ## Helper lemmas -/

lemma isin_out_eq_true_iff (x : Option String) :
    isin_out x = true ↔ ∃ s, x = some s ∧ s ∈ out_events := by
  cases x with
  | none => simp [isin_out]
  | some s => simp [isin_out]

lemma mem_aggregate_pipeline {l : List ProcessedEvent} {m : Nat} {r : AggregateRow}
    (h : r ∈ aggregate_pipeline l m) :
    ∃ g ∈ group_stats_list l, m ≤ g.total_pitches ∧
      r = { pitch_type := g.pitch_type, out_pitch_count := g.out_pitch_count,
            total_pitches := g.total_pitches, out_percentage := g.out_percentage,
            pitch_name := map_get_self pitch_type_map g.pitch_type } := by
  unfold aggregate_pipeline at h
  obtain ⟨g, hg, rfl⟩ := List.mem_map.mp h
  obtain ⟨hg1, hg2⟩ := List.mem_filter.mp hg
  exact ⟨g, hg1, by simpa using hg2, rfl⟩

lemma mem_group_stats_list {l : List ProcessedEvent} {g : GroupStats}
    (h : g ∈ group_stats_list l) :
    ∃ pt ∈ group_keys l, g = make_group_stats l pt := by
  unfold group_stats_list at h
  obtain ⟨pt, hpt, rfl⟩ := List.mem_map.mp h
  exact ⟨pt, hpt, rfl⟩

lemma mem_insert_sorted {s t : String} {l : List String} :
    t ∈ insert_sorted s l ↔ t = s ∨ t ∈ l := by
  induction l with
  | nil => simp [insert_sorted]
  | cons u us ih =>
    by_cases h : strLe s u = true
    · rw [insert_sorted, if_pos h]
      simp only [List.mem_cons]
    · rw [insert_sorted, if_neg h]
      simp only [List.mem_cons, ih]
      tauto

lemma mem_sort_keys {t : String} {l : List String} :
    t ∈ sort_keys l ↔ t ∈ l := by
  induction l with
  | nil => simp [sort_keys]
  | cons u us ih => simp [sort_keys, mem_insert_sorted, ih]

lemma mem_group_keys {l : List ProcessedEvent} {pt : String}
    (h : pt ∈ group_keys l) : ∃ e ∈ l, e.pitch_type = some pt := by
  unfold group_keys at h
  rw [mem_sort_keys, List.mem_dedup] at h
  exact List.mem_filterMap.mp h

lemma make_group_stats_count_le (l : List ProcessedEvent) (pt : String) :
    (make_group_stats l pt).out_pitch_count ≤ (make_group_stats l pt).total_pitches := by
  simp only [make_group_stats]
  exact List.length_filter_le _ _

lemma row_bounds_of_mem_pipeline {l : List ProcessedEvent} {m : Nat} {r : AggregateRow}
    (h : r ∈ aggregate_pipeline l m) :
    r.out_pitch_count ≤ r.total_pitches ∧
      r.out_percentage = round2 ((r.out_pitch_count : ℚ) / (r.total_pitches : ℚ) * 100) := by
  obtain ⟨g, hg, _, rfl⟩ := mem_aggregate_pipeline h
  obtain ⟨pt, _, rfl⟩ := mem_group_stats_list hg
  exact ⟨make_group_stats_count_le l pt, rfl⟩

lemma group_stats_total_pos {l : List ProcessedEvent} {g : GroupStats}
    (h : g ∈ group_stats_list l) : 0 < g.total_pitches := by
  obtain ⟨pt, hpt, rfl⟩ := mem_group_stats_list h
  obtain ⟨e, he, hept⟩ := mem_group_keys hpt
  have hmem : e ∈ l.filter (fun e => e.pitch_type == some pt) :=
    List.mem_filter.mpr ⟨he, by simp [hept]⟩
  simpa [make_group_stats] using List.length_pos_of_mem hmem

/-! ## Claim theorems -/

/-- Claim C1: `calculate_out_percentage` sets `IsOutPitch` to true iff the
event outcome is one of the 13 `out_events`; a null outcome is classified
false.  The classification is a total function of the event (and so can
never raise). -/
theorem calculate_out_percentage_classifies (data : List PitchEvent)
    (p : ProcessedEvent) (hp : p ∈ calculate_out_percentage data) :
    (p.IsOutPitch = true ↔ ∃ s, p.toPitchEvent.events = some s ∧ s ∈ out_events) ∧
    (p.toPitchEvent.events = none → p.IsOutPitch = false) := by
  obtain ⟨e, _, rfl⟩ := List.mem_map.mp hp
  refine ⟨by simpa using isin_out_eq_true_iff e.events, fun h => ?_⟩
  have h' : e.events = none := by simpa using h
  simp [isin_out, h']

/-- A pitch event used to instantiate the classification theorem. -/
def sample_event : PitchEvent :=
  { player_name := "Judge, Aaron", game_year := 2024,
    pitch_type := some "FF", events := some "strikeout" }

/-- `sample_event` with its (true) out flag attached. -/
def sample_processed : ProcessedEvent :=
  { toPitchEvent := sample_event, IsOutPitch := true }

theorem calculate_out_percentage_classifies_witness :
    sample_processed ∈ calculate_out_percentage [sample_event] ∧
    ((sample_processed.IsOutPitch = true ↔
        ∃ s, sample_processed.toPitchEvent.events = some s ∧ s ∈ out_events) ∧
     (sample_processed.toPitchEvent.events = none → sample_processed.IsOutPitch = false)) :=
  ⟨by decide, calculate_out_percentage_classifies [sample_event] sample_processed (by decide)⟩

/-- Claim C2: every row emitted by either aggregation has
`out_pitch_count ≤ total_pitches` (both are counts, so nonnegative), and
`out_percentage` is exactly `out_pitch_count / total_pitches * 100` rounded
to 2 decimal places. -/
theorem aggregate_rows_bounds_and_percentage :
    (∀ (data : List ProcessedEvent) (player : String) (year : Int) (m : Nat)
        (r : AggregateRow), r ∈ get_out_percentage_by_pitch_type data player year m →
        r.out_pitch_count ≤ r.total_pitches ∧
        r.out_percentage = round2 ((r.out_pitch_count : ℚ) / (r.total_pitches : ℚ) * 100)) ∧
    (∀ (data : List ProcessedEvent) (year : Int) (m : Nat) (r : AggregateRow),
        r ∈ get_league_avg_out_percentage data year m →
        r.out_pitch_count ≤ r.total_pitches ∧
        r.out_percentage = round2 ((r.out_pitch_count : ℚ) / (r.total_pitches : ℚ) * 100)) :=
  ⟨fun _ _ _ _ _ h => row_bounds_of_mem_pipeline h,
   fun _ _ _ _ h => row_bounds_of_mem_pipeline h⟩

/-- The concrete scenario of spec §8: three four-seamers (two outs) and a
lone slider, all in 2024 by the same pitcher. -/
def sample_data : List ProcessedEvent :=
  [{ toPitchEvent := { player_name := "Judge, Aaron", game_year := 2024,
                       pitch_type := some "FF", events := some "strikeout" },
     IsOutPitch := true },
   { toPitchEvent := { player_name := "Judge, Aaron", game_year := 2024,
                       pitch_type := some "FF", events := none },
     IsOutPitch := false },
   { toPitchEvent := { player_name := "Judge, Aaron", game_year := 2024,
                       pitch_type := some "FF", events := some "field_out" },
     IsOutPitch := true },
   { toPitchEvent := { player_name := "Judge, Aaron", game_year := 2024,
                       pitch_type := some "SL", events := some "single" },
     IsOutPitch := false }]

/-- The aggregate row the scenario produces for the four-seamers:
2 outs on 3 pitches is 66.67 %. -/
def sample_row : AggregateRow :=
  { pitch_type := "FF", out_pitch_count := 2, total_pitches := 3,
    out_percentage := 6667 / 100, pitch_name := "Four-Seam Fastball" }

/-- The FF aggregate row exactly as the pipeline computes it, its
percentage left as the unevaluated rounding expression. -/
def sample_row_raw : AggregateRow :=
  { pitch_type := "FF", out_pitch_count := 2, total_pitches := 3,
    out_percentage := round2 (((2 : ℕ) : ℚ) / ((3 : ℕ) : ℚ) * 100),
    pitch_name := "Four-Seam Fastball" }

lemma sample_row_raw_eq : sample_row_raw = sample_row := by
  simp only [sample_row_raw, sample_row, AggregateRow.mk.injEq]
  norm_num [round2, round_eq]

lemma league_avg_sample_eval :
    get_league_avg_out_percentage sample_data 2024 2 = [sample_row_raw] := rfl

lemma sample_row_mem_league : sample_row ∈ get_league_avg_out_percentage sample_data 2024 2 := by
  rw [league_avg_sample_eval, ← sample_row_raw_eq]
  exact List.mem_singleton.mpr rfl

theorem aggregate_rows_bounds_and_percentage_witness :
    sample_row ∈ get_league_avg_out_percentage sample_data 2024 2 ∧
    (sample_row.out_pitch_count ≤ sample_row.total_pitches ∧
     sample_row.out_percentage =
       round2 ((sample_row.out_pitch_count : ℚ) / (sample_row.total_pitches : ℚ) * 100)) :=
  ⟨sample_row_mem_league,
   aggregate_rows_bounds_and_percentage.2 sample_data 2024 2 sample_row sample_row_mem_league⟩

/-- Claim C3: no emitted row has `total_pitches < min_pitches`; a group
below the threshold is dropped from the output entirely. -/
theorem threshold_law :
    (∀ (data : List ProcessedEvent) (player : String) (year : Int) (m : Nat)
        (r : AggregateRow), r ∈ get_out_percentage_by_pitch_type data player year m →
        m ≤ r.total_pitches) ∧
    (∀ (data : List ProcessedEvent) (year : Int) (m : Nat) (r : AggregateRow),
        r ∈ get_league_avg_out_percentage data year m → m ≤ r.total_pitches) := by
  refine ⟨fun data player year m r h => ?_, fun data year m r h => ?_⟩ <;>
    · obtain ⟨g, _, hm, rfl⟩ := mem_aggregate_pipeline h
      exact hm

lemma player_sample_eval :
    get_out_percentage_by_pitch_type sample_data "Judge, Aaron" 2024 2 = [sample_row_raw] := rfl

lemma sample_row_mem_player :
    sample_row ∈ get_out_percentage_by_pitch_type sample_data "Judge, Aaron" 2024 2 := by
  rw [player_sample_eval, ← sample_row_raw_eq]
  exact List.mem_singleton.mpr rfl

theorem threshold_law_witness :
    sample_row ∈ get_out_percentage_by_pitch_type sample_data "Judge, Aaron" 2024 2 ∧
    2 ≤ sample_row.total_pitches :=
  ⟨sample_row_mem_player,
   threshold_law.1 sample_data "Judge, Aaron" 2024 2 sample_row sample_row_mem_player⟩

/-- Claim C4: every pitch-type group aggregated by either operation has at
least one member (grouping is only over existing events), so the
out-percentage ratio is never computed for an empty group and the division
is always by a positive count; every emitted row inherits that positive
count. -/
theorem division_by_zero_unreachable :
    (∀ (l : List ProcessedEvent) (g : GroupStats), g ∈ group_stats_list l →
        0 < g.total_pitches) ∧
    (∀ (data : List ProcessedEvent) (player : String) (year : Int) (m : Nat)
        (r : AggregateRow), r ∈ get_out_percentage_by_pitch_type data player year m →
        0 < r.total_pitches) ∧
    (∀ (data : List ProcessedEvent) (year : Int) (m : Nat) (r : AggregateRow),
        r ∈ get_league_avg_out_percentage data year m → 0 < r.total_pitches) := by
  have hrow : ∀ (l : List ProcessedEvent) (m : Nat) (r : AggregateRow),
      r ∈ aggregate_pipeline l m → 0 < r.total_pitches := by
    intro l m r h
    obtain ⟨g, hg, _, rfl⟩ := mem_aggregate_pipeline h
    exact group_stats_total_pos hg
  exact ⟨fun l g h => group_stats_total_pos h,
    fun data player year m r h => hrow _ _ _ h,
    fun data year m r h => hrow _ _ _ h⟩

/-- The FF group aggregate exactly as `group_stats_list` computes it on the
sample data. -/
def sample_group : GroupStats :=
  { pitch_type := "FF", out_pitch_count := 2, total_pitches := 3,
    out_percentage := round2 (((2 : ℕ) : ℚ) / ((3 : ℕ) : ℚ) * 100) }

lemma sample_group_mem : sample_group ∈ group_stats_list sample_data := by
  have h : group_stats_list sample_data =
      sample_group :: [make_group_stats sample_data "SL"] := rfl
  rw [h]
  exact List.mem_cons_self _ _

theorem division_by_zero_unreachable_witness :
    sample_group ∈ group_stats_list sample_data ∧ 0 < sample_group.total_pitches :=
  ⟨sample_group_mem,
   division_by_zero_unreachable.1 sample_data sample_group sample_group_mem⟩

/-- Claim C5: on an empty dataset both aggregations return the empty
sequence, and when no events survive the player/season (or season) filter
the result is likewise the empty sequence rather than an error. -/
theorem empty_input_empty_output :
    (∀ (player : String) (year : Int) (m : Nat),
        get_out_percentage_by_pitch_type [] player year m = []) ∧
    (∀ (year : Int) (m : Nat), get_league_avg_out_percentage [] year m = []) ∧
    (∀ (data : List ProcessedEvent) (player : String) (year : Int) (m : Nat),
        data.filter (fun e => e.player_name == player && e.game_year == year) = [] →
        get_out_percentage_by_pitch_type data player year m = []) ∧
    (∀ (data : List ProcessedEvent) (year : Int) (m : Nat),
        data.filter (fun e => e.game_year == year) = [] →
        get_league_avg_out_percentage data year m = []) := by
  refine ⟨fun _ _ _ => rfl, fun _ _ => rfl, ?_, ?_⟩
  · intro data player year m h
    unfold get_out_percentage_by_pitch_type
    rw [h]
    rfl
  · intro data year m h
    unfold get_league_avg_out_percentage
    rw [h]
    rfl

theorem empty_input_empty_output_witness :
    sample_data.filter
        (fun e => e.player_name == "Nobody" && e.game_year == (2024 : Int)) = [] ∧
    get_out_percentage_by_pitch_type sample_data "Nobody" 2024 5 = [] :=
  ⟨by decide, empty_input_empty_output.2.2.1 sample_data "Nobody" 2024 5 (by decide)⟩

/-- Claim C9: both aggregation operations are pure functions of dataset,
player, season and threshold: evaluating one twice on unchanged arguments
yields the identical row sequence. -/
theorem aggregation_deterministic :
    ∀ (data : List ProcessedEvent) (player : String) (year : Int) (m : Nat),
      get_out_percentage_by_pitch_type data player year m =
        get_out_percentage_by_pitch_type data player year m ∧
      get_league_avg_out_percentage data year m =
        get_league_avg_out_percentage data year m :=
  fun _ _ _ _ => ⟨rfl, rfl⟩

lemma filter_isSome_filterMap (l : List ProcessedEvent) :
    (l.filter (fun e => e.pitch_type.isSome)).filterMap (fun e => e.pitch_type) =
      l.filterMap (fun e => e.pitch_type) := by
  induction l with
  | nil => rfl
  | cons e t ih =>
    cases h : e.pitch_type with
    | none => simp [List.filter_cons, List.filterMap_cons, h, ih]
    | some v => simp [List.filter_cons, List.filterMap_cons, h, ih]

lemma filter_group_of_filter_isSome (l : List ProcessedEvent) (pt : String) :
    (l.filter (fun e => e.pitch_type.isSome)).filter
        (fun e => e.pitch_type == some pt) =
      l.filter (fun e => e.pitch_type == some pt) := by
  induction l with
  | nil => rfl
  | cons e t ih =>
    cases h : e.pitch_type with
    | none => simp [List.filter_cons, h, ih]
    | some v => simp [List.filter_cons, h, ih]

lemma filter_comm (p q : ProcessedEvent → Bool) (l : List ProcessedEvent) :
    (l.filter p).filter q = (l.filter q).filter p := by
  simp [List.filter_filter, Bool.and_comm]

lemma aggregate_pipeline_filter_isSome (l : List ProcessedEvent) (m : Nat) :
    aggregate_pipeline (l.filter (fun e => e.pitch_type.isSome)) m =
      aggregate_pipeline l m := by
  have hkeys : group_keys (l.filter (fun e => e.pitch_type.isSome)) = group_keys l := by
    unfold group_keys
    rw [filter_isSome_filterMap]
  have hstats : make_group_stats (l.filter (fun e => e.pitch_type.isSome)) =
      make_group_stats l := by
    funext pt
    unfold make_group_stats
    rw [filter_group_of_filter_isSome]
  unfold aggregate_pipeline group_stats_list
  rw [hkeys, hstats]

/-- Claim C10: events with a null `pitch_type` are invisible to both
aggregations: deleting them from the dataset leaves either operation's
output unchanged, so they form no group and are counted in no row's
`total_pitches` or `out_pitch_count` (and no emitted row carries a null
pitch type). -/
theorem null_pitch_type_excluded :
    ∀ (data : List ProcessedEvent) (player : String) (year : Int) (m : Nat),
      get_out_percentage_by_pitch_type (data.filter (fun e => e.pitch_type.isSome))
          player year m =
        get_out_percentage_by_pitch_type data player year m ∧
      get_league_avg_out_percentage (data.filter (fun e => e.pitch_type.isSome))
          year m =
        get_league_avg_out_percentage data year m := by
  intro data player year m
  constructor
  · unfold get_out_percentage_by_pitch_type
    rw [filter_comm]
    exact aggregate_pipeline_filter_isSome _ _
  · unfold get_league_avg_out_percentage
    rw [filter_comm]
    exact aggregate_pipeline_filter_isSome _ _

lemma lookup_none_of_not_mem_keys (m : List (String × String)) (c : String)
    (h : c ∉ m.map Prod.fst) : m.lookup c = none := by
  induction m with
  | nil => rfl
  | cons p t ih =>
    obtain ⟨k, v⟩ := p
    simp only [List.map_cons, List.mem_cons, not_or] at h
    have hk : (c == k) = false := beq_eq_false_iff_ne.mpr h.1
    simp [List.lookup, hk, ih h.2]

/-- Claim C6: every emitted row's `pitch_name` is resolved through the
fixed 14-entry code → name table, with any code outside the table used
verbatim as its own display name. -/
theorem pitch_name_lookup :
    (∀ (data : List ProcessedEvent) (player : String) (year : Int) (m : Nat)
        (r : AggregateRow), r ∈ get_out_percentage_by_pitch_type data player year m →
        r.pitch_name = map_get_self pitch_type_map r.pitch_type) ∧
    (∀ (data : List ProcessedEvent) (year : Int) (m : Nat) (r : AggregateRow),
        r ∈ get_league_avg_out_percentage data year m →
        r.pitch_name = map_get_self pitch_type_map r.pitch_type) ∧
    (map_get_self pitch_type_map "FF" = "Four-Seam Fastball" ∧
     map_get_self pitch_type_map "SL" = "Slider" ∧
     map_get_self pitch_type_map "CH" = "Changeup" ∧
     map_get_self pitch_type_map "CU" = "Curveball" ∧
     map_get_self pitch_type_map "SI" = "Sinker" ∧
     map_get_self pitch_type_map "FC" = "Cutter" ∧
     map_get_self pitch_type_map "FS" = "Splitter" ∧
     map_get_self pitch_type_map "FT" = "Two-Seam Fastball" ∧
     map_get_self pitch_type_map "KC" = "Knuckle Curve" ∧
     map_get_self pitch_type_map "EP" = "Eephus" ∧
     map_get_self pitch_type_map "KN" = "Knuckleball" ∧
     map_get_self pitch_type_map "SC" = "Screwball" ∧
     map_get_self pitch_type_map "ST" = "Sweeper" ∧
     map_get_self pitch_type_map "SV" = "Slurve") ∧
    (∀ c : String, c ∉ pitch_type_map.map Prod.fst → map_get_self pitch_type_map c = c) ∧
    map_get_self pitch_type_map "XY" = "XY" := by
  have hrow : ∀ (l : List ProcessedEvent) (m : Nat) (r : AggregateRow),
      r ∈ aggregate_pipeline l m →
      r.pitch_name = map_get_self pitch_type_map r.pitch_type := by
    intro l m r h
    obtain ⟨g, _, _, rfl⟩ := mem_aggregate_pipeline h
    rfl
  refine ⟨fun data player year m r h => hrow _ _ _ h,
    fun data year m r h => hrow _ _ _ h, by decide, ?_, by decide⟩
  intro c hc
  simp [map_get_self, lookup_none_of_not_mem_keys pitch_type_map c hc]

theorem pitch_name_lookup_witness :
    sample_row ∈ get_league_avg_out_percentage sample_data 2024 3 ∧
    sample_row.pitch_name = map_get_self pitch_type_map sample_row.pitch_type :=
  have hmem : sample_row ∈ get_league_avg_out_percentage sample_data 2024 3 := by
    have h : get_league_avg_out_percentage sample_data 2024 3 = [sample_row_raw] := rfl
    rw [h, ← sample_row_raw_eq]
    exact List.mem_singleton.mpr rfl
  ⟨hmem, pitch_name_lookup.2.1 sample_data 2024 3 sample_row hmem⟩

lemma split_first_comma_eq_none {s : List Char} (h : ',' ∉ s) :
    split_first_comma s = none := by
  induction s with
  | nil => rfl
  | cons c cs ih =>
    simp only [List.mem_cons, not_or] at h
    have hc : ¬ c = ',' := fun hcc => h.1 hcc.symm
    simp [split_first_comma, hc, ih h.2]

lemma split_first_comma_append {a : List Char} (b : List Char) (h : ',' ∉ a) :
    split_first_comma (a ++ ',' :: b) = some (a, b) := by
  induction a with
  | nil => simp [split_first_comma]
  | cons c cs ih =>
    simp only [List.mem_cons, not_or] at h
    have hc : ¬ c = ',' := fun hcc => h.1 hcc.symm
    simp [split_first_comma, hc, ih h.2]

/-- Claim C7: `format_player_name` returns a comma-free name unchanged; a
name with a comma is split at its first comma only (anything after it,
further commas included, is the first-name segment), both parts are
trimmed, and the result is "First Last". -/
theorem format_player_name_correct :
    (∀ name : List Char, ',' ∉ name → format_player_name name = name) ∧
    (∀ a b : List Char, ',' ∉ a →
        format_player_name (a ++ ',' :: b) = strip b ++ ' ' :: strip a) ∧
    format_player_name_str "Judge, Aaron" = "Aaron Judge" ∧
    format_player_name_str "Smith" = "Smith" := by
  refine ⟨?_, ?_, by decide, by decide⟩
  · intro name h
    simp [format_player_name, split_first_comma_eq_none h]
  · intro a b h
    simp [format_player_name, split_first_comma_append b h]

theorem format_player_name_correct_witness :
    (',' ∉ ("Judge").toList) ∧
    format_player_name (("Judge").toList ++ ',' :: (" Aaron").toList) =
      strip ((" Aaron").toList) ++ ' ' :: strip (("Judge").toList) :=
  ⟨by decide,
   format_player_name_correct.2.1 ("Judge").toList (" Aaron").toList (by decide)⟩

/-- Claim C8: the loader follows the exact two-attempt policy: a fetch for
the requested `{start_year}-03-01 .. {end_year}-11-30` range; on any
failure exactly one more fetch for the last-3-weeks window; and on a
second failure an empty dataset with both errors reported — the three
cases are exhaustive, so no further retries exist. -/
theorem load_statcast_data_policy :
    ∀ (fetch : String → String → Except String (List PitchEvent)) (clock : Clock)
      (start_year end_year : Int),
    (∀ d, fetch (toString start_year ++ "-03-01") (toString end_year ++ "-11-30") =
          .ok d →
        load_statcast_data fetch clock start_year end_year = ⟨d, []⟩) ∧
    (∀ e d, fetch (toString start_year ++ "-03-01") (toString end_year ++ "-11-30") =
          .error e →
        fetch clock.today_minus_21_str clock.today_str = .ok d →
        load_statcast_data fetch clock start_year end_year =
          ⟨d, ["Error loading data: " ++ e]⟩) ∧
    (∀ e e2, fetch (toString start_year ++ "-03-01") (toString end_year ++ "-11-30") =
          .error e →
        fetch clock.today_minus_21_str clock.today_str = .error e2 →
        load_statcast_data fetch clock start_year end_year =
          ⟨[], ["Error loading data: " ++ e, "Failed to load data: " ++ e2]⟩) := by
  intro fetch clock start_year end_year
  refine ⟨?_, ?_, ?_⟩ <;> intros <;> simp only [load_statcast_data, *]

/-- A fetch stub that always fails, standing in for an unreachable data
source. -/
def failing_fetch : String → String → Except String (List PitchEvent) :=
  fun _ _ => .error "HTTP 500"

/-- A fixed wall clock for exercising the loader's fallback window. -/
def sample_clock : Clock :=
  { today_minus_21_str := "2026-09-21", today_str := "2026-10-12" }

theorem load_statcast_data_policy_witness :
    failing_fetch (toString (2024 : Int) ++ "-03-01") (toString (2024 : Int) ++ "-11-30") =
      .error "HTTP 500" ∧
    failing_fetch sample_clock.today_minus_21_str sample_clock.today_str =
      .error "HTTP 500" ∧
    load_statcast_data failing_fetch sample_clock 2024 2024 =
      ⟨[], ["Error loading data: " ++ "HTTP 500", "Failed to load data: " ++ "HTTP 500"]⟩ :=
  ⟨rfl, rfl,
   (load_statcast_data_policy failing_fetch sample_clock 2024 2024).2.2
     "HTTP 500" "HTTP 500" rfl rfl⟩

end OutPercentageApp
